import Mathlib

/-!
Verification development for the router-worker management plane
(crossbar/worker/router.py, class RouterWorkerSession).

The Python module is embedded shallowly:

* registries (dicts) become association lists with first-match lookup;
* the asynchronous operations are split at their suspension points:
  the code up to a `yield` of a deferred becomes a `..._sync` function,
  and the code after the deferred has fired becomes a `..._resume`
  function taking the outcome of the awaited deferred as an argument;
* Python exceptions become an `Err` value returned next to the post-state,
  so that mutations performed before a raise are preserved, exactly as in
  the source;
* external collaborators (config validator, application-session loader,
  module importer, filesystem, the async port-binding substrate) are
  parameters collected in `Env`, or explicit arguments such as the bind
  outcome of a transport.
-/

/-- Kinds of raised Python exceptions distinguished by the module:
structured management-API faults (`ApplicationError` with a stable code),
`ValueError` (tuple-unpack failure), `NotImplementedError`, `AttributeError`,
and bare `Exception(...)` instances. -/
inductive Err : Type where
  | applicationError (code : String) (msg : String)
  | valueError (msg : String)
  | notImplementedError
  | attributeError (msg : String)
  | plainException (msg : String)
  deriving Repr, DecidableEq

def already_running : String := "crossbar.error.already_running"

def already_exists : String := "crossbar.error.already_exists"

def no_such_object : String := "crossbar.error.no_such_object"

def invalid_configuration : String := "crossbar.error.invalid_configuration"

def cannot_listen : String := "crossbar.error.cannot_listen"

def cannot_stop : String := "crossbar.error.cannot_stop"

def class_import_failed : String := "crossbar.error.class_import_failed"

/-- Is the outcome a raised `ValueError`? -/
def exceptIsValueError {α : Type} : Except Err α → Bool
  | .error (.valueError _) => true
  | _ => false

/-- Is the outcome a raised `ApplicationError` (a structured management-API fault)? -/
def exceptIsApplicationError {α : Type} : Except Err α → Bool
  | .error (.applicationError _ _) => true
  | _ => false

/-- Sessions attached to the router. Only their identity matters to the
registries modelled here; their behaviour lives in external collaborators. -/
inductive Session : Type where
  | routerService (realm : String)
  | uplinkLocal (realm : String)
  | uplinkConnected (tag : String)
  | app (ctype : String)
  deriving Repr, DecidableEq

/-! ### Association lists standing for Python dicts (unique keys, insertion order) -/

/-- Python `d[k]` / `k in d`: first-match lookup. -/
def lookupAssoc {α : Type} (k : String) : List (String × α) → Option α
  | [] => none
  | (k2, v) :: rest => if k2 = k then some v else lookupAssoc k rest

/-- Python `d[k] = v`: replace the value at an existing key, else append. -/
def setAssoc {α : Type} (k : String) (v : α) : List (String × α) → List (String × α)
  | [] => [(k, v)]
  | (k2, v2) :: rest => if k2 = k then (k, v) :: rest else (k2, v2) :: setAssoc k v rest

/-- First-occurrence update of the value stored at a key (Python mutation of
the object held in the dict). -/
def updateAssoc {α : Type} (k : String) (f : α → α) : List (String × α) → List (String × α)
  | [] => []
  | (k2, v) :: rest => if k2 = k then (k2, f v) :: rest else (k2, v) :: updateAssoc k f rest

/-- Python `del d[k]`: remove the first occurrence of a key. -/
def delAssoc {α : Type} (k : String) : List (String × α) → List (String × α)
  | [] => []
  | (k2, v) :: rest => if k2 = k then rest else (k2, v) :: delAssoc k rest

/-! ### Python string helpers used by the source -/

/-- Splitting accumulator for `pySplit`; mirrors CPython `str.split(sep)`
with a one-character separator and no maxsplit. -/
def pySplitAux (c : Char) : List Char → List Char → List (List Char)
  | [], acc => [acc.reverse]
  | x :: xs, acc =>
    if x = c then acc.reverse :: pySplitAux c xs []
    else pySplitAux c xs (x :: acc)

/-- Embedding of Python `s.split(c)` (single-character separator): every
occurrence of the separator splits, an empty string yields one empty field. -/
def pySplit (c : Char) (s : String) : List String :=
  (pySplitAux c s.toList []).map fun l => String.mk l

/-- Embedding of Python `path.encode(utf8)`: the UTF-8 bytes of a text key. -/
def encodeUtf8 (s : String) : List UInt8 :=
  s.toUTF8.toList

/-! ### Configuration records (the fields the source reads) -/

/-- Realm configuration: the source reads only `config[name]` (the realm URI);
all other keys are consumed solely by the external validator. -/
structure RealmConfig : Type where
  name : String
  deriving Repr, DecidableEq

/-- Component configuration: the source reads `type`, `realm`,
`references` (default `[]`), `extra` (default `None`) and
`role` (default `anonymous`). `type` is spelled `ctype` (keyword). -/
structure CompConfig : Type where
  ctype : String
  realm : String
  references : List String := []
  extra : Option String := none
  role : Option String := none
  deriving Repr, DecidableEq

/-- Uplink configuration: not inspected here (handed to the bridge session). -/
structure UplinkConfig : Type where
  blob : String := ""
  deriving Repr, DecidableEq

/-- Role configuration: not inspected here, consumed by the routing core. -/
structure RoleConfig : Type where
  blob : String := ""
  deriving Repr, DecidableEq

/-! ### Web path configuration (the resource tree input) -/

/-- The non-recursive keys a single path configuration may carry.  Fields
that exist in the source config are `Option` when the source uses
`.get`/presence tests, and are read through `req` when the source indexes
them unconditionally (a missing key raises `KeyError` there).
`object` is spelled `obj` (avoids the structure-eta keyword clash). -/
structure PathFields : Type where
  realm : Option String := none
  role : Option String := none
  url : Option String := none
  value : Option String := none
  directory : Option String := none
  package : Option String := none
  resource : Option String := none
  module : Option String := none
  obj : Option String := none
  processor : Option String := none
  temp_directory : Option String := none
  classname : Option String := none
  form_fields : Option String := none
  enable_directory_listing : Bool := false
  deriving Repr, DecidableEq

/-- One node of the declarative web path configuration: a `type`
discriminator, its scalar fields, and (for container nodes) nested
sub-paths keyed by URL path segment. -/
inductive PathConfig : Type where
  | node (ptype : String) (fields : PathFields) (paths : List (String × PathConfig))

/-- The type discriminator of a path configuration node. -/
def PathConfig.ptype : PathConfig → String
  | .node t _ _ => t

/-- The scalar fields of a path configuration node. -/
def PathConfig.fields : PathConfig → PathFields
  | .node _ f _ => f

/-- The nested sub-paths of a path configuration node. -/
def PathConfig.paths : PathConfig → List (String × PathConfig)
  | .node _ _ ps => ps

/-- Endpoint configuration: the source only tests `tls in config[endpoint]`. -/
structure Endpoint : Type where
  tls : Bool := false
  deriving Repr, DecidableEq

/-- Web transport options (`config.get(options, {})`). -/
structure WebOptions : Type where
  access_log : Option Bool := none
  display_tracebacks : Option Bool := none
  hsts : Option Bool := none
  hsts_max_age : Option Nat := none
  deriving Repr, DecidableEq

/-- Transport configuration: `type`, `endpoint`, web `options` and web
`paths`. `type` is spelled `ttype` (keyword). -/
structure TransportConfig : Type where
  ttype : String
  endpoint : Endpoint := {}
  options : WebOptions := {}
  paths : List (String × PathConfig) := []

/-- A web serving resource: its kind tag, the scalar payload handed to the
external resource constructor, and the ordered `putChild` registrations
performed on it.  The kind tags mirror the dispatch branches of
`_create_resource` (with `404` for `Resource404`). -/
inductive Resource : Type where
  | mk (kind : String) (payload : List (String × String)) (children : List (List UInt8 × Resource))

/-- The kind tag of a resource. -/
def Resource.kind : Resource → String
  | .mk k _ _ => k

/-- The scalar payload of a resource. -/
def Resource.payload : Resource → List (String × String)
  | .mk _ p _ => p

/-- The ordered child registrations of a resource. -/
def Resource.children : Resource → List (List UInt8 × Resource)
  | .mk _ _ cs => cs

/-- Twisted `resource.putChild(name, child)`: record the registration in order. -/
def putChild (r : Resource) (name : List UInt8) (child : Resource) : Resource :=
  .mk r.kind r.payload (r.children ++ [(name, child)])

/-- The `Resource404(self._templates, ...)` error page. -/
def resource404 : Resource :=
  .mk "404" [] []

/-- The serving factory selected by `start_router_transport`: one tag per
branch of the type dispatch; `site` is the composite web server and carries
the built root resource and the options the source sets on the Twisted
`Site` (access logging, traceback display, and the applied HSTS max-age). -/
inductive TransportFactory : Type where
  | rawsocket
  | websocket
  | flashpolicy
  | websocketTestee
  | streamTestee
  | site (root : Resource) (accessLog : Bool) (displayTracebacks : Bool) (hstsMaxAge : Option Nat)

/-! ### Registry entry objects (the four entity classes of the source) -/

/-- `RouterTransport`: a (listening) transport running on a router worker,
tracked in the registry only after a successful bind. -/
structure RouterTransport : Type where
  id : String
  config : TransportConfig
  factory : TransportFactory
  port : Nat
  created : Nat

/-- `RouterComponent`: an application component hosted in the router worker. -/
structure RouterComponent : Type where
  id : String
  config : CompConfig
  session : Session
  created : Nat
  deriving Repr, DecidableEq

/-- `RouterRealmRole`: a role in a realm running in a router worker. -/
structure RouterRealmRole : Type where
  id : String
  config : RoleConfig
  deriving Repr, DecidableEq

/-- `RouterRealmUplink`: an uplink in a realm; the constructor leaves
`session` as `None` until the bridge has connected. -/
structure RouterRealmUplink : Type where
  id : String
  config : UplinkConfig
  session : Option Session
  deriving Repr, DecidableEq

/-- `RouterRealm`: a realm running in a router worker, with its per-realm
role and uplink registries. -/
structure RouterRealm : Type where
  id : String
  config : RealmConfig
  session : Option Session
  created : Nat
  roles : List (String × RouterRealmRole) := []
  uplinks : List (String × RouterRealmUplink) := []
  deriving Repr, DecidableEq

/-- The mutable registries of `RouterWorkerSession` created in `onJoin`:
realm registry, realm-URI index, component registry, transport registry,
plus the connection pool inherited from the parent worker class that
`start_router_component` resolves references against. -/
structure WorkerState : Type where
  realms : List (String × RouterRealm) := []
  realm_to_id : List (String × String) := []
  components : List (String × RouterComponent) := []
  transports : List (String × RouterTransport) := []
  connections : List (String × String) := []

/-- The worker state right after `onJoin`: all registries empty. -/
def emptyState : WorkerState := {}

/-- `utcstr(created)`. Modelled from the spec: the external `autobahn.util.utcstr`
renders a creation instant as a UTC timestamp string; the rendering itself is
out of scope, so the model prints the abstract instant. -/
def utcstr (t : Nat) : String :=
  toString t

/-! ### External collaborators -/

/-- Outcomes of the external collaborators consumed by the module.  The
config validators (`crossbar.common.checkconfig`) and the application
session loader are repository code outside the embedded module; modelled
from the spec, which treats them as a domain-specific schema check and a
dynamic loader respectively, they appear as uninterpreted oracles.  The importer
and filesystem entries stand for `importlib` / `pkg_resources` / `os.path`. -/
structure Env : Type where
  checkRouterRealm : RealmConfig → Bool
  checkRouterComponent : CompConfig → Bool
  createComponent : CompConfig → Except Err Session
  hasWSGI : Bool
  hasCGI : Bool
  importPackage : String → Bool
  resourceFilename : String → String → Except String String
  importModule : String → Bool
  moduleHasAttr : String → String → Bool
  importClass : String → Bool
  isDir : String → Bool
  defaultTempDir : String
  cbdir : String

/-- `os.path.abspath(os.path.join(cbdir, p))`: path resolution is external,
the model keeps the join. -/
def joinPath (cbdir p : String) : String :=
  cbdir ++ "/" ++ p

/-- Python `d[key]` on a required key: a missing key raises `KeyError`. -/
def req {α : Type} (o : Option α) (key : String) : Except Err α :=
  match o with
  | some v => .ok v
  | none => .error (.plainException ("KeyError: " ++ key))

/-! ### The 14 path types recognized by the resource tree builder -/

/-- The path `type` values `_create_resource` dispatches on, in source order. -/
def recognizedPathTypes : List String :=
  ["websocket", "static", "wsgi", "redirect", "json", "cgi", "longpoll",
   "publisher", "webhook", "caller", "upload", "resource", "schemadoc", "path"]

/-- Key comparison used by `sorted(paths)`: lexicographic order on the
path keys (Python compares text keys by code point, as Lean `String` does). -/
def keyLe (a b : String × PathConfig) : Prop :=
  a.1 ≤ b.1

instance : DecidableRel keyLe := fun a b => inferInstanceAs (Decidable (a.1 ≤ b.1))

instance : IsTotal (String × PathConfig) keyLe := ⟨fun a b => le_total a.1 b.1⟩

instance : IsTrans (String × PathConfig) keyLe := ⟨fun _ _ _ => le_trans⟩

mutual

/-- Does every node of a path configuration carry a recognized `type`?
Modelled from the spec: the external validator `checkconfig.check_router_transport`
(repository code outside the embedded module) checks, per spec section 6, that
each entry of `paths` holds one of the recognized resource-type configs,
recursing into `path` containers. -/
def pathTypesOk : PathConfig → Bool
  | .node t _ ps => decide (t ∈ recognizedPathTypes) && pathListTypesOk ps

/-- `pathTypesOk` over the values of a path map. -/
def pathListTypesOk : List (String × PathConfig) → Bool
  | [] => true
  | (_, pc) :: rest => pathTypesOk pc && pathListTypesOk rest

end

/-- Message of the unknown-path-type fault raised by `_create_resource`. -/
def invalid_path_type_msg (t : String) (nested : Bool) : String :=
  "invalid Web path type " ++ t ++ " in " ++ (if nested then "nested" else "root") ++ " config"

mutual

/-- `_create_resource(path_config, nested)`: builds one serving resource from
one path configuration node, dispatching on the `type` discriminator in the
source order of the branches.  Constructors of external resource classes
(Twisted resources, REST-bridge sessions added to the router session factory,
the WSGI thread pool) are out of scope; the model records their kind and the
scalar configuration handed to them. -/
def create_resource (env : Env) (st : WorkerState) : PathConfig → Bool → Except Err Resource
  | .node t f ps, nested =>
    if t = "websocket" then
      -- WampWebSocketServerFactory(...), startFactory(), WebSocketResource
      .ok (.mk "websocket" [] [])
    else if t = "static" then
      match f.directory with
      | some dir =>
        .ok (.mk "static" [("dir", joinPath env.cbdir dir),
                           ("listing", toString f.enable_directory_listing)] [])
      | none =>
        match f.package with
        | some pkg =>
          match f.resource with
          | none => .error (.applicationError invalid_configuration "missing resource")
          | some rsrc =>
            if env.importPackage pkg then
              match env.resourceFilename pkg rsrc with
              | .ok static_dir =>
                .ok (.mk "static" [("dir", static_dir),
                                   ("listing", toString f.enable_directory_listing)] [])
              | .error e =>
                .error (.applicationError invalid_configuration
                  ("Could not import resource " ++ rsrc ++ " from package " ++ pkg ++ ": " ++ e))
            else
              .error (.applicationError invalid_configuration
                ("Could not import resource " ++ rsrc ++ " from package " ++ pkg))
        | none => .error (.applicationError invalid_configuration "missing web spec")
    else if t = "wsgi" then
      if env.hasWSGI = false then
        .error (.applicationError invalid_configuration "WSGI unsupported")
      else
        match f.module with
        | none => .error (.applicationError invalid_configuration "missing WSGI app module")
        | some mod =>
          match f.obj with
          | none => .error (.applicationError invalid_configuration "missing WSGI app object")
          | some ob =>
            if env.importModule mod = false then
              .error (.applicationError invalid_configuration
                ("WSGI app module " ++ mod ++ " import failed"))
            else if env.moduleHasAttr mod ob = false then
              .error (.applicationError invalid_configuration
                ("WSGI app object " ++ ob ++ " not in module " ++ mod))
            else
              -- WSGIResource on a thread pool; root-wrapped only when not nested
              .ok (.mk "wsgi" [("module", mod), ("object", ob),
                               ("wrapped", if nested then "no" else "yes")] [])
    else if t = "redirect" then
      match req f.url "url" with
      | .error e => .error e
      | .ok u => .ok (.mk "redirect" [("url", u)] [])
    else if t = "json" then
      match req f.value "value" with
      | .error e => .error e
      | .ok v => .ok (.mk "json" [("value", v)] [])
    else if t = "cgi" then
      match req f.processor "processor" with
      | .error e => .error e
      | .ok proc =>
        match req f.directory "directory" with
        | .error e => .error e
        | .ok dir =>
          if env.hasCGI then
            .ok (.mk "cgi" [("dir", joinPath env.cbdir dir), ("processor", proc)] [])
          else
            -- without CGI support the name CgiDirectory is never imported
            .error (.plainException "NameError: CgiDirectory")
    else if t = "longpoll" then
      .ok (.mk "longpoll" [] [])
    else if t = "publisher" then
      match req f.realm "realm" with
      | .error e => .error e
      | .ok realm =>
        -- a fresh ApplicationSession is added to the router session factory
        .ok (.mk "publisher" [("realm", realm), ("role", f.role.getD "anonymous")] [])
    else if t = "webhook" then
      match req f.realm "realm" with
      | .error e => .error e
      | .ok realm =>
        .ok (.mk "webhook" [("realm", realm), ("role", f.role.getD "anonymous")] [])
    else if t = "caller" then
      match req f.realm "realm" with
      | .error e => .error e
      | .ok realm =>
        .ok (.mk "caller" [("realm", realm), ("role", f.role.getD "anonymous")] [])
    else if t = "upload" then
      match req f.directory "directory" with
      | .error e => .error e
      | .ok dir0 =>
        let upload_directory := joinPath env.cbdir dir0
        if env.isDir upload_directory = false then
          .error (.applicationError invalid_configuration
            ("configured upload directory " ++ upload_directory ++
             " in file upload resource is not a directory"))
        else
          let temp_directory :=
            match f.temp_directory with
            | some td => joinPath env.cbdir td
            | none => env.defaultTempDir  -- gettempdir()/crossbar-uploads, created on demand
          if env.isDir temp_directory = false then
            .error (.applicationError invalid_configuration
              ("configured temp directory " ++ temp_directory ++
               " in file upload resource is not a directory"))
          else
            match req f.realm "realm" with
            | .error e => .error e
            | .ok realm =>
              match req f.form_fields "form_fields" with
              | .error e => .error e
              | .ok ff =>
                .ok (.mk "upload" [("dir", upload_directory), ("tmp", temp_directory),
                                   ("realm", realm), ("form_fields", ff)] [])
    else if t = "resource" then
      match f.classname with
      | none =>
        -- the KeyError from path_config[classname] is caught by the enclosing
        -- try, whose message formatting then reads the unbound local klassname
        .error (.plainException "UnboundLocalError: klassname")
      | some k =>
        if env.importClass k then
          .ok (.mk "resource" [("classname", k)] [])
        else
          .error (.applicationError class_import_failed ("Failed to import class " ++ k))
    else if t = "schemadoc" then
      match req f.realm "realm" with
      | .error e => .error e
      | .ok realm =>
        match lookupAssoc realm st.realm_to_id with
        | none =>
          .error (.applicationError no_such_object
            ("No realm with URI " ++ realm ++ " configured"))
        | some _realm_id =>
          -- realm_schemas are read from the service session of that realm
          .ok (.mk "schemadoc" [("realm", realm)] [])
    else if t = "path" then
      -- container node: resolve the nested root, then attach the nested
      -- sub-paths exactly as _add_paths does (sorted keys, root skipped)
      match hroot : lookupAssoc "/" ps with
      | some rootCfg =>
        match create_resource env st rootCfg true with
        | .error e => .error e
        | .ok nested_resource =>
          add_paths_list env st nested_resource (List.insertionSort keyLe ps)
      | none =>
        add_paths_list env st resource404 (List.insertionSort keyLe ps)
    else
      .error (.applicationError invalid_configuration (invalid_path_type_msg t nested))
termination_by pc _ => sizeOf pc
decreasing_by
  · have hmem : ("/", rootCfg) ∈ ps := by
      clear * - hroot
      induction ps with
      | nil => simp [lookupAssoc] at hroot
      | cons kv rest ih =>
        obtain ⟨k2, v2⟩ := kv
        by_cases hk : k2 = "/"
        · subst hk
          simp [lookupAssoc] at hroot
          subst hroot
          exact List.mem_cons_self _ _
        · simp [lookupAssoc, hk] at hroot
          exact List.mem_cons_of_mem _ (ih hroot)
    have h1 : sizeOf ("/", rootCfg) < sizeOf ps := List.sizeOf_lt_of_mem hmem
    simp only [Prod.mk.sizeOf_spec] at h1
    simp only [PathConfig.node.sizeOf_spec]
    omega
  · have hperm : ∀ (l l2 : List (String × PathConfig)), l.Perm l2 → sizeOf l = sizeOf l2 := by
      intro l l2 hp
      induction hp with
      | nil => rfl
      | cons x _ ih => simp only [List.cons.sizeOf_spec]; omega
      | swap x y l => simp only [List.cons.sizeOf_spec]; omega
      | trans _ _ ih1 ih2 => omega
    have h1 := hperm _ _ (List.perm_insertionSort keyLe ps)
    simp only [PathConfig.node.sizeOf_spec]
    omega
  · have hperm : ∀ (l l2 : List (String × PathConfig)), l.Perm l2 → sizeOf l = sizeOf l2 := by
      intro l l2 hp
      induction hp with
      | nil => rfl
      | cons x _ ih => simp only [List.cons.sizeOf_spec]; omega
      | swap x y l => simp only [List.cons.sizeOf_spec]; omega
      | trans _ _ ih1 ih2 => omega
    have h1 := hperm _ _ (List.perm_insertionSort keyLe ps)
    simp only [PathConfig.node.sizeOf_spec]
    omega

/-- `_add_paths(resource, paths)`, inner loop: iterate the sorted path keys,
UTF-8 encode each text key, and attach every non-root path as a child built
by `_create_resource`.  The root check compares the text key against the
byte literal b"/": under Python 2 (the primary target of this codebase)
u"/" == b"/", so the root path is the one key skipped. -/
def add_paths_list (env : Env) (st : WorkerState) (resource : Resource) :
    List (String × PathConfig) → Except Err Resource
  | [] => .ok resource
  | (path, pc) :: rest =>
    let webPath := encodeUtf8 path
    if path ≠ "/" then
      match create_resource env st pc true with
      | .error e => .error e
      | .ok child => add_paths_list env st (putChild resource webPath child) rest
    else
      add_paths_list env st resource rest
termination_by l => sizeOf l
decreasing_by
  · simp only [List.cons.sizeOf_spec, Prod.mk.sizeOf_spec]
    omega
  · simp only [List.cons.sizeOf_spec]
    omega
  · simp only [List.cons.sizeOf_spec]
    omega

end

/-- `_add_paths(resource, paths)`: add all configured non-root paths under a
resource, in `sorted(paths)` order. -/
def add_paths (env : Env) (st : WorkerState) (resource : Resource)
    (paths : List (String × PathConfig)) : Except Err Resource :=
  add_paths_list env st resource (List.insertionSort keyLe paths)

/-! ### Transport lifecycle -/

/-- The transport `type` values `start_router_transport` dispatches on. -/
def transportTypes : List String :=
  ["rawsocket", "websocket", "flashpolicy", "websocket.testee", "stream.testee", "web"]

/-- Modelled from the spec: the external validator
`checkconfig.check_router_transport` (repository code outside the embedded
module).  Per spec sections 4.6 and 6 it accepts exactly the declared
transport types, with every web `paths` entry holding one of the recognized
resource-type configs; `_create_resource` keeps its own defensive
unknown-type branch regardless. -/
def check_router_transport (config : TransportConfig) : Bool :=
  decide (config.ttype ∈ transportTypes) &&
    (if config.ttype = "web" then pathListTypesOk config.paths else true)

/-- Factory selection of `start_router_transport`: one branch per transport
type, in source order; the `web` branch builds the resource tree (root
resource from the literal root path or a 404 page, then `_add_paths`) and
configures the Twisted `Site` from the options. -/
def select_factory (env : Env) (st : WorkerState) (config : TransportConfig) :
    Except Err TransportFactory :=
  if config.ttype = "rawsocket" then
    .ok .rawsocket
  else if config.ttype = "websocket" then
    .ok .websocket
  else if config.ttype = "flashpolicy" then
    .ok .flashpolicy
  else if config.ttype = "websocket.testee" then
    .ok .websocketTestee
  else if config.ttype = "stream.testee" then
    .ok .streamTestee
  else if config.ttype = "web" then
    match (match lookupAssoc "/" config.paths with
           | some root_config => create_resource env st root_config false
           | none => .ok resource404) with
    | .error e => .error e
    | .ok root =>
      match add_paths env st root config.paths with
      | .error e => .error e
      | .ok root2 =>
        let accessLog := config.options.access_log.getD false
        let displayTracebacks := config.options.display_tracebacks.getD false
        let hstsMaxAge : Option Nat :=
          if config.options.hsts.getD false then
            if config.endpoint.tls then
              some (config.options.hsts_max_age.getD 31536000)
            else
              none  -- warn: HSTS requested on a non-TLS endpoint, skipped
          else none
        .ok (.site root2 accessLog displayTracebacks hstsMaxAge)
  else
    -- unreachable after check_router_transport has passed
    .error (.plainException "logic error")

/-- Message of the duplicate-transport fault. -/
def transport_running_msg (id : String) : String :=
  "Could not start transport: a transport with ID " ++ id ++ " is already running (or starting)"

/-- Message of the invalid-transport-configuration fault. -/
def transport_invalid_config_msg : String :=
  "Invalid router transport configuration"

/-- Message of the cannot-listen fault. -/
def cannot_listen_msg : String :=
  "Cannot listen on transport endpoint"

/-- Outcome of one `start_router_transport` call: the post-state, the value
returned or exception raised to the caller, and whether a listening port was
requested from the external I/O substrate. -/
structure TOut : Type where
  state : WorkerState
  result : Except Err Unit
  listenRequested : Bool

/-- `start_router_transport(id, config)`: duplicate check, config validation,
factory selection, then the asynchronous bind.  `bind` is the outcome the
external `create_listening_port_from_config` deferred eventually fires with;
the registry commit happens only in its success callback, the failure
callback re-raises as Cannot-Listen and touches nothing. -/
def start_router_transport (env : Env) (st : WorkerState) (id : String)
    (config : TransportConfig) (bind : Except String Nat) (now : Nat) : TOut :=
  if (lookupAssoc id st.transports).isSome then
    ⟨st, .error (.applicationError already_running (transport_running_msg id)), false⟩
  else if check_router_transport config = false then
    ⟨st, .error (.applicationError invalid_configuration transport_invalid_config_msg), false⟩
  else
    match select_factory env st config with
    | .error e => ⟨st, .error e, false⟩
    | .ok factory =>
      match bind with
      | .ok port =>
        ⟨{ st with transports :=
             setAssoc id ⟨id, config, factory, port, now⟩ st.transports },
         .ok (), true⟩
      | .error _err =>
        ⟨st, .error (.applicationError cannot_listen cannot_listen_msg), true⟩

/-- `get_router_transports()`: transports sorted by creation time, each
marshaled to id, creation timestamp string and configuration. -/
structure TransportSummary : Type where
  id : String
  created : String
  config : TransportConfig

/-- Creation-time order on registered transports. -/
def transportCreatedLe (a b : RouterTransport) : Prop :=
  a.created ≤ b.created

instance : DecidableRel transportCreatedLe :=
  fun a b => inferInstanceAs (Decidable (a.created ≤ b.created))

instance : IsTotal RouterTransport transportCreatedLe := ⟨fun a b => Nat.le_total _ _⟩

instance : IsTrans RouterTransport transportCreatedLe := ⟨fun _ _ _ => Nat.le_trans⟩

/-- `get_router_transports(...)`. -/
def get_router_transports (st : WorkerState) : List TransportSummary :=
  (List.insertionSort transportCreatedLe (st.transports.map Prod.snd)).map
    fun t => { id := t.id, created := utcstr t.created, config := t.config }

/-! ### Realm lifecycle -/

/-- `get_router_realms()`: declared in the management API but its body only
raises a bare `Exception("not implemented")`. -/
def get_router_realms (st : WorkerState) : WorkerState × Except Err (List String) :=
  (st, .error (.plainException "not implemented"))

/-- Message of the duplicate-realm fault. -/
def realm_running_msg (id : String) : String :=
  "Could not start realm: a realm with ID " ++ id ++ " is already running (or starting)"

/-- Message of the invalid-realm-configuration fault. -/
def realm_invalid_config_msg : String :=
  "Invalid router realm configuration"

/-- `start_router_realm(id, config, ...)` up to its only suspension point,
`yield extra[onready]`: duplicate check, config validation, then the realm is
tracked in `self.realms` and `self.realm_to_id`, a router is started for it
in the external router factory, and a `RouterServiceSession` is constructed,
stored on the tracked realm and added to the router session factory as
`trusted`.  All of that happens before the ready signal is awaited. -/
def start_router_realm_sync (env : Env) (st : WorkerState) (id : String)
    (config : RealmConfig) (now : Nat) (_enable_trace : Bool) :
    WorkerState × Except Err Unit :=
  if (lookupAssoc id st.realms).isSome then
    (st, .error (.applicationError already_running (realm_running_msg id)))
  else if env.checkRouterRealm config = false then
    (st, .error (.applicationError invalid_configuration realm_invalid_config_msg))
  else
    let realm := config.name
    let rlm : RouterRealm := { id := id, config := config, session := none, created := now }
    let st1 : WorkerState :=
      { st with
        realms := setAssoc id rlm st.realms,
        realm_to_id := setAssoc realm id st.realm_to_id }
    -- router := self._router_factory.start_realm(rlm); optional traffic tracing
    -- rlm.session := RouterServiceSession(cfg, router, schemas); added as trusted
    let st2 : WorkerState :=
      { st1 with
        realms := updateAssoc id
          (fun r => { r with session := some (.routerService realm) }) st1.realms }
    (st2, .ok ())

/-- `start_router_realm` after the suspension point: the only code following
the yield is a log line, and a failure of the awaited ready deferred
propagates out of the inlineCallbacks coroutine with no rollback. -/
def start_router_realm_resume (st : WorkerState) (ready : Except Err Unit) :
    WorkerState × Except Err Unit :=
  match ready with
  | .ok _ => (st, .ok ())
  | .error e => (st, .error e)

/-! ### Uplink lifecycle -/

/-- Message of the no-such-realm fault. -/
def no_realm_msg (id : String) : String :=
  "No realm with ID " ++ id

/-- Message of the duplicate-uplink fault. -/
def uplink_exists_msg (uplink_id realm_id : String) : String :=
  "An uplink with ID " ++ uplink_id ++ " already exists in realm with ID " ++ realm_id

/-- `start_router_realm_uplink(realm_id, uplink_id, uplink_config)` up to its
only suspension point, `yield extra[onready]`: realm existence check, uplink
uniqueness check, then a `RouterRealmUplink` placeholder (session `None`) is
recorded in the realm before the local bridge session is constructed, added
to the router session factory, and awaited. -/
def start_router_realm_uplink_sync (st : WorkerState) (realm_id uplink_id : String)
    (uplink_config : UplinkConfig) : WorkerState × Except Err Unit :=
  match lookupAssoc realm_id st.realms with
  | none =>
    (st, .error (.applicationError no_such_object (no_realm_msg realm_id)))
  | some rlm =>
    if (lookupAssoc uplink_id rlm.uplinks).isSome then
      (st, .error (.applicationError already_exists (uplink_exists_msg uplink_id realm_id)))
    else
      let uplk : RouterRealmUplink := { id := uplink_id, config := uplink_config, session := none }
      let record := fun r : RouterRealm => { r with uplinks := setAssoc uplink_id uplk r.uplinks }
      let st1 : WorkerState := { st with realms := updateAssoc realm_id record st.realms }
      -- uplink.LocalSession(...) is constructed and added as trusted, then awaited
      (st1, .ok ())

/-- `start_router_realm_uplink` after the suspension point: on success the
connected bridge session is attached to the recorded uplink entry; a failure
is logged and re-raised, leaving the placeholder in place. -/
def start_router_realm_uplink_resume (st : WorkerState) (realm_id uplink_id : String)
    (ready : Except Err Session) : WorkerState × Except Err Unit :=
  match ready with
  | .error e => (st, .error e)
  | .ok s =>
    let setSession := fun u : RouterRealmUplink => { u with session := some s }
    let attach := fun r : RouterRealm => { r with uplinks := updateAssoc uplink_id setSession r.uplinks }
    (({ st with realms := updateAssoc realm_id attach st.realms }), .ok ())

/-! ### Component lifecycle -/

/-- Message of the duplicate-component fault. -/
def component_running_msg (id : String) : String :=
  "Could not start component: a component with ID " ++ id ++ " is already running (or starting)"

/-- Message of the invalid-component-configuration fault. -/
def component_invalid_config_msg : String :=
  "Invalid router component configuration"

/-- Message of the invalid-reference-type fault. -/
def ref_invalid_type_msg (ref ref_type : String) : String :=
  "cannot resolve reference " ++ ref ++ " - invalid reference type " ++ ref_type

/-- Message of the unresolved-reference fault. -/
def ref_unresolved_msg (ref ref_type ref_id : String) : String :=
  "cannot resolve reference " ++ ref ++ " - no " ++ ref_type ++ " with ID " ++ ref_id

/-- Message of the ValueError raised by `ref_type, ref_id = ref.split(':')`
when the split does not yield exactly two fields. -/
def unpack_msg : String :=
  "ValueError: unpack"

/-- The reference-resolution loop of `start_router_component`: each entry of
`config[references]` is split on a colon and unpacked into a type and an id
(a split arity other than two raises `ValueError` at the unpacking), then
only `connection` references are resolved against the connection pool of the
parent worker class; unknown types and unresolved ids raise
Invalid-Configuration. -/
def resolve_references (connections : List (String × String)) :
    List String → Except Err (List (String × String))
  | [] => .ok []
  | ref :: rest =>
    match pySplit ':' ref with
    | [ref_type, ref_id] =>
      if ref_type = "connection" then
        match lookupAssoc ref_id connections with
        | some c =>
          match resolve_references connections rest with
          | .ok acc => .ok ((ref, c) :: acc)
          | .error e => .error e
        | none => .error (.applicationError invalid_configuration
            (ref_unresolved_msg ref ref_type ref_id))
      else
        .error (.applicationError invalid_configuration (ref_invalid_type_msg ref ref_type))
    | _ => .error (.valueError unpack_msg)

/-- `start_router_component(id, config)`: duplicate check, config validation,
reference resolution, dynamic instantiation of the application session (with
the fatal-error isolation handler and the start/stop notification hooks
installed on it), then commit to the component registry and attachment to
the router session factory under the configured role. -/
def start_router_component (env : Env) (st : WorkerState) (id : String)
    (config : CompConfig) (now : Nat) : WorkerState × Except Err Unit :=
  if (lookupAssoc id st.components).isSome then
    (st, .error (.applicationError already_running (component_running_msg id)))
  else if env.checkRouterComponent config = false then
    (st, .error (.applicationError invalid_configuration component_invalid_config_msg))
  else
    match resolve_references st.connections config.references with
    | .error e => (st, .error e)
    | .ok _references =>
      match env.createComponent config with
      | .error e => (st, .error e)  -- instantiation failures are logged and re-raised
      | .ok session =>
        (({ st with components := setAssoc id ⟨id, config, session, now⟩ st.components }),
         .ok ())

/-- Message of the cannot-stop-component fault. -/
def cannot_stop_component_msg (id : String) : String :=
  "Failed to stop component " ++ id

/-- Message of the no-such-component fault. -/
def no_component_msg (id : String) : String :=
  "No component " ++ id

/-- Modelled from the spec: `stop_router_component` reads
`self._session_factory`, an attribute that does not exist in this class
(spec section 4.5; the class only defines `_router_session_factory`), so the
read raises `AttributeError` inside the try block. -/
def session_factory_attr : Except Err Unit :=
  .error (.attributeError "RouterWorkerSession object has no attribute _session_factory")

/-- `stop_router_component(id)`: with the id present, the source tries
`self._session_factory.remove(self.components[id])` followed by deletion
from the registry; any exception in the try block - here always the
`AttributeError` from the missing attribute - is mapped to Cannot-Stop,
so the deletion is never reached.  An absent id raises No-Such-Object. -/
def stop_router_component (st : WorkerState) (id : String) :
    WorkerState × Except Err Unit :=
  if (lookupAssoc id st.components).isSome then
    match session_factory_attr with
    | .ok _ =>
      (({ st with components := delAssoc id st.components }), .ok ())
    | .error _e =>
      (st, .error (.applicationError cannot_stop (cannot_stop_component_msg id)))
  else
    (st, .error (.applicationError no_such_object (no_component_msg id)))

/-- One marshaled component summary of `get_router_components()`. -/
structure ComponentSummary : Type where
  id : String
  created : String
  config : CompConfig
  deriving Repr, DecidableEq

/-- Creation-time order on registered components. -/
def componentCreatedLe (a b : RouterComponent) : Prop :=
  a.created ≤ b.created

instance : DecidableRel componentCreatedLe :=
  fun a b => inferInstanceAs (Decidable (a.created ≤ b.created))

instance : IsTotal RouterComponent componentCreatedLe := ⟨fun a b => Nat.le_total _ _⟩

instance : IsTrans RouterComponent componentCreatedLe := ⟨fun _ _ _ => Nat.le_trans⟩

/-- `get_router_components()`: components sorted by creation time, each
marshaled to id, creation timestamp string and configuration. -/
def get_router_components (st : WorkerState) : List ComponentSummary :=
  (List.insertionSort componentCreatedLe (st.components.map Prod.snd)).map
    fun c => { id := c.id, created := utcstr c.created, config := c.config }

/-! ### Derived definitions used by the statements -/

/-- The non-root path keys of a web path map in the order `_add_paths`
attaches them: sorted, with the root key dropped. -/
def sorted_web_keys (paths : List (String × PathConfig)) : List String :=
  ((List.insertionSort keyLe paths).map Prod.fst).filter fun k => k != "/"

/-- Lookup of one uplink entry through the realm registry. -/
def realm_uplink_lookup (st : WorkerState) (realm_id uplink_id : String) :
    Option RouterRealmUplink :=
  match lookupAssoc realm_id st.realms with
  | some rlm => lookupAssoc uplink_id rlm.uplinks
  | none => none

/-- Is a reference string a `connection:` reference that resolves against the
given connection pool?  (The shape the resolution loop consumes silently.) -/
def resolvableConn (connections : List (String × String)) (ref : String) : Bool :=
  match pySplit ':' ref with
  | [ref_type, ref_id] => ref_type = "connection" && (lookupAssoc ref_id connections).isSome
  | _ => false

/-! ### Concrete fixtures for the closed statements -/

/-- An environment in which every external collaborator succeeds. -/
def env0 : Env where
  checkRouterRealm := fun _ => true
  checkRouterComponent := fun _ => true
  createComponent := fun c => .ok (.app c.ctype)
  hasWSGI := true
  hasCGI := true
  importPackage := fun _ => true
  resourceFilename := fun _ _ => .ok "dir"
  importModule := fun _ => true
  moduleHasAttr := fun _ _ => true
  importClass := fun _ => true
  isDir := fun _ => true
  defaultTempDir := "/tmp/crossbar-uploads"
  cbdir := "/node"

/-- A component configuration fixture. -/
def cfgComp1 : CompConfig := { ctype := "myapp.Klass", realm := "realm1" }

/-- A rawsocket transport configuration fixture. -/
def cfgRS : TransportConfig := { ttype := "rawsocket" }

/-- A worker state with one running realm, component and transport. -/
def stW : WorkerState where
  realms := [("r1", { id := "r1", config := { name := "realm1" },
                      session := some (.routerService "realm1"), created := 1 })]
  realm_to_id := [("realm1", "r1")]
  components := [("c1", { id := "c1", config := cfgComp1, session := .app "myapp.Klass", created := 2 })]
  transports := [("t1", { id := "t1", config := cfgRS, factory := .rawsocket, port := 9, created := 3 })]

/-- A worker state with a single running component `c1`. -/
def stC3 : WorkerState where
  components := [("c1", { id := "c1", config := cfgComp1, session := .app "myapp.Klass", created := 2 })]

/-- A worker state with a single realm `r1` carrying no uplinks. -/
def stU : WorkerState where
  realms := [("r1", { id := "r1", config := { name := "realm1" },
                      session := some (.routerService "realm1"), created := 1 })]
  realm_to_id := [("realm1", "r1")]

/-- A json path node fixture. -/
def jsonPC : PathConfig := .node "json" { value := some "1" } []

/-- A web path map fixture: a root entry and two non-root entries given in
non-sorted order. -/
def paths4 : List (String × PathConfig) := [("b", jsonPC), ("/", jsonPC), ("a", jsonPC)]

/-- A path node fixture with an unrecognized type. -/
def badPC : PathConfig := .node "bogus" {} []

/-- A web transport configuration fixture containing a path of an
unrecognized type. -/
def cfgWebBad : TransportConfig := { ttype := "web", paths := [("x", badPC)] }

/-- A component configuration fixture whose references mix an unknown
reference type with a colon-free reference. -/
def cfgC10 : CompConfig := { ctype := "myapp.Klass", realm := "realm1",
                             references := ["bad:x", "foo"] }

/-- A component configuration fixture with one resolvable connection
reference followed by a colon-free reference. -/
def cfgC10b : CompConfig := { ctype := "myapp.Klass", realm := "realm1",
                              references := ["connection:a", "foo"] }

/-- A worker state holding the connection `a` in the connection pool. -/
def stC10b : WorkerState where
  connections := [("a", "connA")]

/-! ### Helper lemmas on the dict model -/

theorem lookupAssoc_setAssoc_self {α : Type} (k : String) (v : α) (l : List (String × α)) :
    lookupAssoc k (setAssoc k v l) = some v := by
  induction l with
  | nil => simp [setAssoc, lookupAssoc]
  | cons kv rest ih =>
    obtain ⟨k2, v2⟩ := kv
    by_cases h : k2 = k
    · subst h
      simp [setAssoc, lookupAssoc]
    · simp [setAssoc, lookupAssoc, h, ih]

theorem lookupAssoc_updateAssoc_self {α : Type} (k : String) (f : α → α)
    (l : List (String × α)) :
    lookupAssoc k (updateAssoc k f l) = (lookupAssoc k l).map f := by
  induction l with
  | nil => simp [updateAssoc, lookupAssoc]
  | cons kv rest ih =>
    obtain ⟨k2, v2⟩ := kv
    by_cases h : k2 = k
    · subst h
      simp [updateAssoc, lookupAssoc]
    · simp [updateAssoc, lookupAssoc, h, ih]

theorem setAssoc_eq_append {α : Type} (k : String) (v : α) {l : List (String × α)}
    (h : lookupAssoc k l = none) : setAssoc k v l = l ++ [(k, v)] := by
  induction l with
  | nil => simp [setAssoc]
  | cons kv rest ih =>
    obtain ⟨k2, v2⟩ := kv
    by_cases hk : k2 = k
    · subst hk
      simp [lookupAssoc] at h
    · simp only [lookupAssoc, if_neg hk] at h
      simp [setAssoc, hk, ih h]

/-! ### Claim theorems -/

/-- C9: for every worker state, `get_router_realms` raises the bare
`Exception("not implemented")` - not a structured management-API fault -
returns no realm list, and leaves the state unchanged. -/
theorem c9_get_router_realms_not_implemented (st : WorkerState) :
    get_router_realms st = (st, .error (.plainException "not implemented")) ∧
    exceptIsApplicationError (get_router_realms st).2 = false :=
  ⟨rfl, rfl⟩

/-- C3: evaluation of `stop_router_component` at the failing input.  The claim
says a present id is detached from the routing-session factory and deleted
from the registry, returning successfully; the code instead reads the
nonexistent attribute `self._session_factory`, so the present-id call always
raises Cannot-Stop and leaves the component registered, while an absent id
raises No-Such-Object as the claim says. -/
theorem c3_stop_component_code_behavior :
    stop_router_component stC3 "c1" =
      (stC3, .error (.applicationError cannot_stop (cannot_stop_component_msg "c1"))) ∧
    (lookupAssoc "c1" stC3.components).isSome = true ∧
    stop_router_component stC3 "c2" =
      (stC3, .error (.applicationError no_such_object (no_component_msg "c2"))) :=
  ⟨rfl, rfl, rfl⟩

/-- C2: for realms, components and transports alike, a second start with an
id already present in the respective registry fails with Already-Running and
returns the whole worker state unchanged (so the first instance is kept as
it was, including its config, session or factory, and creation time). -/
theorem c2_duplicate_start (env : Env) (st : WorkerState) (now : Nat) :
    (∀ (id : String) (config : RealmConfig) (enable_trace : Bool),
      (lookupAssoc id st.realms).isSome = true →
      start_router_realm_sync env st id config now enable_trace =
        (st, .error (.applicationError already_running (realm_running_msg id)))) ∧
    (∀ (id : String) (config : CompConfig),
      (lookupAssoc id st.components).isSome = true →
      start_router_component env st id config now =
        (st, .error (.applicationError already_running (component_running_msg id)))) ∧
    (∀ (id : String) (config : TransportConfig) (bind : Except String Nat),
      (lookupAssoc id st.transports).isSome = true →
      start_router_transport env st id config bind now =
        ⟨st, .error (.applicationError already_running (transport_running_msg id)), false⟩) := by
  refine ⟨?_, ?_, ?_⟩
  · intro id config enable_trace h
    simp [start_router_realm_sync, h]
  · intro id config h
    simp [start_router_component, h]
  · intro id config bind h
    simp [start_router_transport, h]

/-- C2, witness: in a worker running realm `r1`, component `c1` and transport
`t1`, each second start fails with Already-Running and changes nothing. -/
theorem c2_duplicate_start_witness :
    start_router_realm_sync env0 stW "r1" { name := "realm9" } 7 false =
      (stW, .error (.applicationError already_running (realm_running_msg "r1"))) ∧
    start_router_component env0 stW "c1" cfgComp1 7 =
      (stW, .error (.applicationError already_running (component_running_msg "c1"))) ∧
    start_router_transport env0 stW "t1" cfgRS (.ok 1) 7 =
      ⟨stW, .error (.applicationError already_running (transport_running_msg "t1")), false⟩ :=
  ⟨(c2_duplicate_start env0 stW 7).1 "r1" { name := "realm9" } false rfl,
   (c2_duplicate_start env0 stW 7).2.1 "c1" cfgComp1 rfl,
   (c2_duplicate_start env0 stW 7).2.2 "t1" cfgRS (.ok 1) rfl⟩

/-- C1, counterexample: starting realm `r1` (URI `realm1`) on an empty worker
runs the sync phase of `start_router_realm` to its suspension point with the
ready signal still pending, yet the realm is already committed: the realm
registry holds `r1` and the URI index maps `realm1` to `r1`.  This refutes
the claim that the registry and index are only updated after the ready
signal has fired. -/
theorem c1_commit_before_ready_counterexample :
    (start_router_realm_sync env0 emptyState "r1" { name := "realm1" } 0 false).2 = .ok () ∧
    (start_router_realm_sync env0 emptyState "r1" { name := "realm1" } 0 false).1.realms.map
      Prod.fst = ["r1"] ∧
    lookupAssoc "realm1"
      (start_router_realm_sync env0 emptyState "r1" { name := "realm1" } 0
        false).1.realm_to_id = some "r1" :=
  ⟨rfl, rfl, rfl⟩

/-- C1, amended: in `start_router_realm` the realm is committed into the
realm registry and the URI index during the sync phase, before the service
session ready signal is awaited; a duplicate-id or validation failure occurs
before any commit and leaves the state unchanged; and a failure of the
awaited ready deferred propagates without rollback, leaving the committed
realm in place. -/
theorem c1_commit_before_ready (env : Env) (st : WorkerState) (id : String)
    (config : RealmConfig) (now : Nat) (enable_trace : Bool) :
    ((start_router_realm_sync env st id config now enable_trace).2 = .ok () →
      (lookupAssoc id
        (start_router_realm_sync env st id config now enable_trace).1.realms).isSome = true ∧
      lookupAssoc config.name
        (start_router_realm_sync env st id config now enable_trace).1.realm_to_id = some id) ∧
    (∀ e, (start_router_realm_sync env st id config now enable_trace).2 = .error e →
      (start_router_realm_sync env st id config now enable_trace).1 = st) ∧
    (∀ (st2 : WorkerState) (e : Err),
      start_router_realm_resume st2 (.error e) = (st2, .error e)) := by
  refine ⟨?_, ?_, fun st2 e => rfl⟩
  · intro hok
    by_cases h1 : (lookupAssoc id st.realms).isSome = true
    · simp [start_router_realm_sync, h1] at hok
    · by_cases h2 : env.checkRouterRealm config = false
      · simp [start_router_realm_sync, h1, h2] at hok
      · constructor
        · simp [start_router_realm_sync, h1, h2, lookupAssoc_updateAssoc_self,
            lookupAssoc_setAssoc_self]
        · simp [start_router_realm_sync, h1, h2, lookupAssoc_setAssoc_self]
  · intro e herr
    by_cases h1 : (lookupAssoc id st.realms).isSome = true
    · simp [start_router_realm_sync, h1]
    · by_cases h2 : env.checkRouterRealm config = false
      · simp [start_router_realm_sync, h1, h2]
      · simp [start_router_realm_sync, h1, h2] at herr

/-- C1, witness for the amended theorem: on an empty worker the sync phase
commits `r1` and maps `realm1` to it; on a worker already running `r1` the
sync phase fails and changes nothing; and a failed ready deferred is
re-raised unchanged. -/
theorem c1_commit_before_ready_witness :
    ((lookupAssoc "r1"
      (start_router_realm_sync env0 emptyState "r1" { name := "realm1" } 0
        false).1.realms).isSome = true ∧
     lookupAssoc "realm1"
       (start_router_realm_sync env0 emptyState "r1" { name := "realm1" } 0
         false).1.realm_to_id = some "r1") ∧
    (start_router_realm_sync env0 stW "r1" { name := "realm1" } 0 false).1 = stW ∧
    start_router_realm_resume emptyState (.error (.plainException "boom")) =
      (emptyState, .error (.plainException "boom")) :=
  ⟨(c1_commit_before_ready env0 emptyState "r1" { name := "realm1" } 0 false).1 rfl,
   (c1_commit_before_ready env0 stW "r1" { name := "realm1" } 0 false).2.1
     (.applicationError already_running (realm_running_msg "r1")) rfl,
   (c1_commit_before_ready env0 emptyState "r1" { name := "realm1" } 0 false).2.2
     emptyState (.plainException "boom")⟩

/-- C6: `get_router_components` and `get_router_transports` return, for each
registered entity, exactly the record of id, creation timestamp string and
config, and the returned list is a permutation of the registry entries
ordered by creation time ascending. -/
theorem c6_list_marshaling (st : WorkerState) :
    ∃ (lc : List RouterComponent) (lt : List RouterTransport),
      lc.Perm (st.components.map Prod.snd) ∧
      List.Sorted componentCreatedLe lc ∧
      get_router_components st =
        lc.map (fun c => { id := c.id, created := utcstr c.created, config := c.config }) ∧
      lt.Perm (st.transports.map Prod.snd) ∧
      List.Sorted transportCreatedLe lt ∧
      get_router_transports st =
        lt.map (fun t => { id := t.id, created := utcstr t.created, config := t.config }) :=
  ⟨List.insertionSort componentCreatedLe (st.components.map Prod.snd),
   List.insertionSort transportCreatedLe (st.transports.map Prod.snd),
   List.perm_insertionSort _ _, List.sorted_insertionSort _ _, rfl,
   List.perm_insertionSort _ _, List.sorted_insertionSort _ _, rfl⟩

/-- C7: once `start_router_transport` has passed the duplicate check, the
validation and the factory selection, the bind outcome decides everything:
a successful bind appends the record of id, config, factory and port to the
transport registry; a failed bind raises Cannot-Listen, leaves the state
unchanged and leaves no entry under the id.  The listening port was
requested in both cases. -/
theorem c7_bind_commit (env : Env) (st : WorkerState) (id : String)
    (config : TransportConfig) (f : TransportFactory) (now : Nat)
    (hfree : lookupAssoc id st.transports = none)
    (hck : check_router_transport config = true)
    (hsel : select_factory env st config = .ok f) :
    (∀ p, start_router_transport env st id config (.ok p) now =
      ⟨{ st with transports := st.transports ++ [(id, ⟨id, config, f, p, now⟩)] },
       .ok (), true⟩) ∧
    (∀ e, start_router_transport env st id config (.error e) now =
      ⟨st, .error (.applicationError cannot_listen cannot_listen_msg), true⟩ ∧
      lookupAssoc id
        (start_router_transport env st id config (.error e) now).state.transports = none) := by
  constructor
  · intro p
    simp [start_router_transport, hfree, hck, hsel, setAssoc_eq_append _ _ hfree]
  · intro e
    refine ⟨?_, ?_⟩ <;>
      simp [start_router_transport, hfree, hck, hsel]

/-- C7, witness: a fresh rawsocket transport is committed with its port on a
successful bind, and a failed bind raises Cannot-Listen and leaves the
registry without the id. -/
theorem c7_bind_commit_witness :
    start_router_transport env0 emptyState "t1" cfgRS (.ok 4) 5 =
      ⟨{ emptyState with
           transports := emptyState.transports ++ [("t1", ⟨"t1", cfgRS, .rawsocket, 4, 5⟩)] },
       .ok (), true⟩ ∧
    start_router_transport env0 emptyState "t1" cfgRS (.error "boom") 5 =
      ⟨emptyState, .error (.applicationError cannot_listen cannot_listen_msg), true⟩ ∧
    lookupAssoc "t1"
      (start_router_transport env0 emptyState "t1" cfgRS (.error "boom") 5).state.transports =
      none :=
  ⟨(c7_bind_commit env0 emptyState "t1" cfgRS .rawsocket 5 rfl rfl rfl).1 4,
   ((c7_bind_commit env0 emptyState "t1" cfgRS .rawsocket 5 rfl rfl rfl).2 "boom").1,
   ((c7_bind_commit env0 emptyState "t1" cfgRS .rawsocket 5 rfl rfl rfl).2 "boom").2⟩

/-- C8: after the realm-existence and uplink-uniqueness checks of
`start_router_realm_uplink` pass, the sync phase records a placeholder
uplink entry whose session is `None` before the operation suspends on the
bridge ready signal, and a second start for the same realm id and uplink id
issued against that intermediate state fails with Already-Exists and
changes nothing. -/
theorem c8_uplink_placeholder (st : WorkerState) (realm_id uplink_id : String)
    (ucfg : UplinkConfig) (rlm : RouterRealm)
    (hrealm : lookupAssoc realm_id st.realms = some rlm)
    (hfree : lookupAssoc uplink_id rlm.uplinks = none) :
    (start_router_realm_uplink_sync st realm_id uplink_id ucfg).2 = .ok () ∧
    realm_uplink_lookup (start_router_realm_uplink_sync st realm_id uplink_id ucfg).1
      realm_id uplink_id = some { id := uplink_id, config := ucfg, session := none } ∧
    (∀ ucfg2,
      start_router_realm_uplink_sync
        (start_router_realm_uplink_sync st realm_id uplink_id ucfg).1
        realm_id uplink_id ucfg2 =
      ((start_router_realm_uplink_sync st realm_id uplink_id ucfg).1,
       .error (.applicationError already_exists (uplink_exists_msg uplink_id realm_id)))) := by
  refine ⟨?_, ?_, ?_⟩
  · simp [start_router_realm_uplink_sync, hrealm, hfree]
  · simp [start_router_realm_uplink_sync, hrealm, hfree, realm_uplink_lookup,
      lookupAssoc_updateAssoc_self, lookupAssoc_setAssoc_self]
  · intro ucfg2
    simp [start_router_realm_uplink_sync, hrealm, hfree,
      lookupAssoc_updateAssoc_self, lookupAssoc_setAssoc_self]

/-- C8, witness: on a worker with realm `r1` and no uplinks, starting uplink
`u1` records the null-session placeholder at the suspension point and a
concurrent second start of `u1` fails with Already-Exists. -/
theorem c8_uplink_placeholder_witness :
    (start_router_realm_uplink_sync stU "r1" "u1" {}).2 = .ok () ∧
    realm_uplink_lookup (start_router_realm_uplink_sync stU "r1" "u1" {}).1 "r1" "u1" =
      some { id := "u1", config := {}, session := none } ∧
    start_router_realm_uplink_sync (start_router_realm_uplink_sync stU "r1" "u1" {}).1
      "r1" "u1" { blob := "2" } =
      ((start_router_realm_uplink_sync stU "r1" "u1" {}).1,
       .error (.applicationError already_exists (uplink_exists_msg "u1" "r1"))) := by
  have h := c8_uplink_placeholder stU "r1" "u1" {}
    { id := "r1", config := { name := "realm1" },
      session := some (.routerService "realm1"), created := 1 } rfl rfl
  exact ⟨h.1, h.2.1, h.2.2 { blob := "2" }⟩

/-! ### Lemmas on the recursive checks and the builder loop -/

theorem pathListTypesOk_false_of_mem {ps : List (String × PathConfig)} {k : String}
    {pc : PathConfig} (hmem : (k, pc) ∈ ps) (hbad : pc.ptype ∉ recognizedPathTypes) :
    pathListTypesOk ps = false := by
  induction ps with
  | nil => cases hmem
  | cons kv rest ih =>
    obtain ⟨k2, pc2⟩ := kv
    rcases List.mem_cons.mp hmem with h | h
    · obtain ⟨hk, hpc⟩ := Prod.mk.injEq .. ▸ h.symm
      subst hpc
      obtain ⟨t, f, ps2⟩ := pc2
      simp only [PathConfig.ptype] at hbad
      simp [pathListTypesOk, pathTypesOk, hbad]
    · simp [pathListTypesOk, ih h]

theorem add_paths_list_children (env : Env) (st : WorkerState) :
    ∀ (l : List (String × PathConfig)) (res res' : Resource),
      add_paths_list env st res l = .ok res' →
      ∃ cs, res'.children = res.children ++ cs ∧
        cs.map Prod.fst = ((l.map Prod.fst).filter (fun k => k != "/")).map encodeUtf8 := by
  intro l
  induction l with
  | nil =>
    intro res res' h
    simp [add_paths_list] at h
    subst h
    exact ⟨[], by simp⟩
  | cons kv rest ih =>
    obtain ⟨path, pc⟩ := kv
    intro res res' h
    by_cases hp : path = "/"
    · subst hp
      simp [add_paths_list] at h
      obtain ⟨cs, h1, h2⟩ := ih res res' h
      refine ⟨cs, h1, ?_⟩
      simpa using h2
    · simp only [add_paths_list, if_pos hp] at h
      split at h
      · exact absurd h (by simp)
      · rename_i child hc
        obtain ⟨cs, h1, h2⟩ := ih _ res' h
        refine ⟨(encodeUtf8 path, child) :: cs, ?_, ?_⟩
        · rw [h1]
          simp [putChild, Resource.children]
        · simp [h2, hp]

/-- C5: a web transport configuration with some path whose type is not one of
the recognized resource types makes `start_router_transport` fail with
Invalid-Configuration, leaves the transport registry (and the whole state)
unchanged, and never requests a network listener. -/
theorem c5_unrecognized_path_type (env : Env) (st : WorkerState) (id : String)
    (config : TransportConfig) (bind : Except String Nat) (now : Nat)
    (k : String) (pc : PathConfig)
    (hfree : lookupAssoc id st.transports = none)
    (hweb : config.ttype = "web")
    (hmem : (k, pc) ∈ config.paths)
    (hbad : pc.ptype ∉ recognizedPathTypes) :
    start_router_transport env st id config bind now =
      ⟨st, .error (.applicationError invalid_configuration transport_invalid_config_msg),
       false⟩ := by
  have hck : check_router_transport config = false := by
    simp [check_router_transport, hweb, pathListTypesOk_false_of_mem hmem hbad]
  simp [start_router_transport, hfree, hck]

/-- C5, witness: a web transport whose path `x` has the unknown type `bogus`
fails with Invalid-Configuration on a fresh worker, with no listener
requested. -/
theorem c5_unrecognized_path_type_witness :
    start_router_transport env0 emptyState "t1" cfgWebBad (.ok 4) 5 =
      ⟨emptyState,
       .error (.applicationError invalid_configuration transport_invalid_config_msg),
       false⟩ :=
  c5_unrecognized_path_type env0 emptyState "t1" cfgWebBad (.ok 4) 5 "x" badPC rfl rfl
    (by simp [cfgWebBad]) (by decide)

/-- C4: whenever `_add_paths` completes, the children it attached under the
resource are exactly the non-root path keys, UTF-8 encoded, appended in
lexicographically ascending key order; the literal root path is never
attached (under the Python-2 text/byte equality of the source, see
`add_paths_list`), and every other key appears. -/
theorem c4_add_paths_order (env : Env) (st : WorkerState) (res res' : Resource)
    (paths : List (String × PathConfig))
    (h : add_paths env st res paths = .ok res') :
    res'.children.map Prod.fst =
      res.children.map Prod.fst ++ (sorted_web_keys paths).map encodeUtf8 ∧
    List.Sorted (fun a b : String => a ≤ b) (sorted_web_keys paths) ∧
    "/" ∉ sorted_web_keys paths ∧
    (sorted_web_keys paths).Perm ((paths.map Prod.fst).filter (fun k => k != "/")) := by
  simp only [add_paths] at h
  refine ⟨?_, ?_, ?_, ?_⟩
  · obtain ⟨cs, h1, h2⟩ := add_paths_list_children env st _ res res' h
    rw [h1]
    simp only [List.map_append, h2, sorted_web_keys]
  · have hs := List.sorted_insertionSort keyLe paths
    have hs2 : List.Sorted (fun a b : String => a ≤ b)
        ((List.insertionSort keyLe paths).map Prod.fst) :=
      List.Pairwise.map Prod.fst (fun _ _ hab => hab) hs
    exact hs2.filter _
  · simp [sorted_web_keys, List.mem_filter]
  · exact ((List.perm_insertionSort keyLe paths).map Prod.fst).filter _

/-- C4, witness: attaching the path map with keys `b`, `/`, `a` under a 404
root registers exactly the children `a` then `b` (sorted, root skipped,
UTF-8 encoded). -/
theorem c4_add_paths_order_witness :
    (Resource.mk "404" [] [(encodeUtf8 "a", .mk "json" [("value", "1")] []),
                           (encodeUtf8 "b", .mk "json" [("value", "1")] [])]).children.map
      Prod.fst =
      resource404.children.map Prod.fst ++ (sorted_web_keys paths4).map encodeUtf8 ∧
    List.Sorted (fun a b : String => a ≤ b) (sorted_web_keys paths4) ∧
    "/" ∉ sorted_web_keys paths4 ∧
    (sorted_web_keys paths4).Perm ((paths4.map Prod.fst).filter (fun k => k != "/")) :=
  c4_add_paths_order env0 emptyState resource404 _ paths4 (by
    have h1 : ("/" : String) ≤ "a" := by
      rw [String.le_iff_toList_le]; decide
    have h2 : ¬ (("b" : String) ≤ "/") := by
      rw [String.le_iff_toList_le]; decide
    have h3 : ¬ (("b" : String) ≤ "a") := by
      rw [String.le_iff_toList_le]; decide
    simp [add_paths, paths4, keyLe, h1, h2, h3, add_paths_list, create_resource, jsonPC, req,
      putChild, resource404, Resource.kind, Resource.children, Resource.payload])

theorem resolve_references_unpack (connections : List (String × String)) :
    ∀ (pre : List String) (r : String) (rest : List String),
      (∀ p ∈ pre, resolvableConn connections p = true) →
      (pySplit ':' r).length ≠ 2 →
      resolve_references connections (pre ++ r :: rest) =
        .error (.valueError unpack_msg) := by
  intro pre
  induction pre with
  | nil =>
    intro r rest _ hlen
    rcases hsp : pySplit ':' r with _ | ⟨a, _ | ⟨b, _ | ⟨c, t⟩⟩⟩
    · simp [resolve_references, hsp]
    · simp [resolve_references, hsp]
    · exact absurd (by rw [hsp]; rfl) hlen
    · simp [resolve_references, hsp]
  | cons p pre ih =>
    intro r rest hres hlen
    have hp := hres p (List.mem_cons_self _ _)
    simp only [resolvableConn] at hp
    rcases hsp : pySplit ':' p with _ | ⟨a, _ | ⟨b, _ | ⟨c, t⟩⟩⟩ <;>
      rw [hsp] at hp <;> simp at hp
    obtain ⟨ha, hb⟩ := hp
    obtain ⟨cval, hcv⟩ := Option.isSome_iff_exists.mp hb
    have htail := ih r rest (fun q hq => hres q (List.mem_cons_of_mem _ hq)) hlen
    simp [resolve_references, hsp, ha, hcv, htail]

theorem resolve_references_invalid_config_ref (connections : List (String × String)) :
    ∀ (refs : List String) (code msg : String),
      resolve_references connections refs = .error (.applicationError code msg) →
      ∃ ref ref_type ref_id, ref ∈ refs ∧ pySplit ':' ref = [ref_type, ref_id] ∧
        (msg = ref_invalid_type_msg ref ref_type ∨
         msg = ref_unresolved_msg ref ref_type ref_id) := by
  intro refs
  induction refs with
  | nil =>
    intro code msg h
    simp [resolve_references] at h
  | cons ref rest ih =>
    intro code msg h
    rcases hsp : pySplit ':' ref with _ | ⟨a, _ | ⟨b, _ | ⟨c, t⟩⟩⟩
    · simp only [resolve_references, hsp] at h
      simp at h
    · simp only [resolve_references, hsp] at h
      simp at h
    · simp only [resolve_references, hsp] at h
      by_cases ha : a = "connection"
      · subst ha
        rw [if_pos rfl] at h
        rcases hlk : lookupAssoc b connections with _ | cval <;> rw [hlk] at h
        · simp only [Except.error.injEq, Err.applicationError.injEq] at h
          exact ⟨ref, "connection", b, List.mem_cons_self _ _, hsp, .inr h.2.symm⟩
        · rcases hin : resolve_references connections rest with e | acc <;> rw [hin] at h
          · simp only [Except.error.injEq] at h
            obtain ⟨r2, t2, i2, hmem, hsp2, hmsg⟩ := ih code msg (by rw [hin, h])
            exact ⟨r2, t2, i2, List.mem_cons_of_mem _ hmem, hsp2, hmsg⟩
          · simp at h
      · rw [if_neg ha] at h
        simp only [Except.error.injEq, Err.applicationError.injEq] at h
        exact ⟨ref, a, b, List.mem_cons_self _ _, hsp, .inl h.2.symm⟩
    · simp only [resolve_references, hsp] at h
      simp at h

/-- C10, counterexample: the references list `["bad:x", "foo"]` contains the
colon-free string `foo`, which does not split into two fields, yet
`start_router_component` raises the Invalid-Configuration fault (for the
earlier reference of unknown type `bad`), not a ValueError - refuting the
claim as universally stated. -/
theorem c10_unpack_counterexample :
    cfgC10.references = ["bad:x", "foo"] ∧
    (pySplit ':' "foo").length ≠ 2 ∧
    start_router_component env0 emptyState "c1" cfgC10 0 =
      (emptyState, .error (.applicationError invalid_configuration
        (ref_invalid_type_msg "bad:x" "bad"))) ∧
    exceptIsValueError (start_router_component env0 emptyState "c1" cfgC10 0).2 = false :=
  ⟨rfl, by decide, rfl, rfl⟩

/-- C10, amended: the reference-resolution step of `start_router_component`
walks the references in list order; when it reaches a reference that does
not split on the colon into exactly two fields - in particular whenever all
earlier references are resolvable connection references - it raises an
unhandled ValueError rather than the Invalid-Configuration fault; and every
Invalid-Configuration fault the resolution raises (unknown reference type or
unresolved id) is raised for a reference that does split into exactly two
fields. -/
theorem c10_amended_reference_unpack :
    (∀ (env : Env) (st : WorkerState) (id : String) (config : CompConfig) (now : Nat)
       (pre : List String) (r : String) (rest : List String),
      lookupAssoc id st.components = none →
      env.checkRouterComponent config = true →
      config.references = pre ++ r :: rest →
      (∀ p ∈ pre, resolvableConn st.connections p = true) →
      (pySplit ':' r).length ≠ 2 →
      start_router_component env st id config now =
        (st, .error (.valueError unpack_msg))) ∧
    (∀ (connections : List (String × String)) (refs : List String) (code msg : String),
      resolve_references connections refs = .error (.applicationError code msg) →
      ∃ ref ref_type ref_id, ref ∈ refs ∧ pySplit ':' ref = [ref_type, ref_id] ∧
        (msg = ref_invalid_type_msg ref ref_type ∨
         msg = ref_unresolved_msg ref ref_type ref_id)) := by
  constructor
  · intro env st id config now pre r rest hfree hck hrefs hpre hlen
    have hres := resolve_references_unpack st.connections pre r rest hpre hlen
    simp [start_router_component, hfree, hck, hrefs, hres]
  · exact resolve_references_invalid_config_ref

/-- C10, witness for the amended theorem: with the resolvable reference
`connection:a` followed by the colon-free `foo`, the start raises the
ValueError. -/
theorem c10_amended_reference_unpack_witness :
    start_router_component env0 stC10b "c1" cfgC10b 0 =
      (stC10b, .error (.valueError unpack_msg)) :=
  c10_amended_reference_unpack.1 env0 stC10b "c1" cfgC10b 0 ["connection:a"] "foo" []
    rfl rfl rfl (by decide) (by decide)
